import Mathlib

/-
  Verification of the session/state-management logic of the ChatWithPDF
  application (src/app.py) against its natural-language specification.

  The embedding models:
  - `extract_text_from_pdf` (app.py lines 27-39): per-page text concatenation
    with blank-line separators, Python `str.strip`, and the two diagnostic
    messages produced on emptiness and on a raised exception;
  - the Streamlit session state (`pdf_text_context`, `messages`,
    `chat_session`) as an explicit `Session` record;
  - the Process PDF handler (lines 71-88), the Clear PDF Context & Chat
    handler (lines 93-98), the chat-input send handler (lines 107-151) and
    the Clear Chat Only handler (lines 156-163) as pure transition functions.

  `genai` chat sessions are opaque objects created afresh by
  `model.start_chat(history=[])`; object identity is modelled by a natural
  number handle, with `start_chat` returning the successor of the current
  handle (a brand-new object, hence distinct from the one it replaces).
  The remote reply or exception of `chat_session.send_message` is supplied
  as an explicit `ApiResult` parameter.
-/

namespace ChatWithPDF

/-- Characters removed by Python `str.strip()` (the ASCII whitespace set). -/
def isPySpace (c : Char) : Bool :=
  c == ' ' || c == '\t' || c == '\n' || c == '\r' || c == '\x0B' || c == '\x0C'

/-- Python `str.strip()` on the underlying character list: drop leading and
trailing whitespace characters. -/
def pyStripList (l : List Char) : List Char :=
  ((l.dropWhile isPySpace).reverse.dropWhile isPySpace).reverse

/-- Python `str.strip()`. -/
def pyStrip (s : String) : String := String.mk (pyStripList s.data)

/-- Boolean test that `pat` is a leading segment of `l`. -/
def startsWithL : List Char → List Char → Bool
  | [], _ => true
  | _ :: _, [] => false
  | a :: as, b :: bs => a == b && startsWithL as bs

/-- Boolean test that `pat` occurs contiguously somewhere in the list. -/
def occursIn (pat : List Char) : List Char → Bool
  | [] => startsWithL pat []
  | c :: cs => startsWithL pat (c :: cs) || occursIn pat cs

/-- Python substring membership `sub in s`. -/
def pyContains (s sub : String) : Bool := occursIn sub.data s.data

/-- Diagnostic string returned by `extract_text_from_pdf` when no page
contributed any text (app.py line 36). -/
def noTextMsg : String := "No text could be extracted from this PDF."

/-- Diagnostic string returned by `extract_text_from_pdf` when
`pdfplumber.open` (or the page loop) raises (app.py line 38). -/
def readErrorMsg (e : String) : String :=
  "Error reading PDF: " ++ e ++ ". Is it a valid PDF file?"

/-- Outcome of opening the uploaded payload with pdfplumber: either the
document opens and each page yields the string returned by
`page.extract_text()` (with `None` mapped to `""`, both being falsy in the
`if page_text:` test), or an exception is raised with message `detail`. -/
inductive PdfOpen where
  | pages (texts : List String)
  | raised (detail : String)

/-- The accumulation loop of app.py lines 31-35: starting from `""`, each
page whose text is truthy appends that text followed by a blank line. -/
def pageFold (texts : List String) : String :=
  texts.foldl (fun acc p => if p != "" then acc ++ (p ++ "\n\n") else acc) ""

/-- Recursive form of the page-accumulation loop, used for induction. -/
def concatPages : List String → String
  | [] => ""
  | p :: ps => (if p != "" then p ++ "\n\n" else "") ++ concatPages ps

/-- The helper `extract_text_from_pdf` of app.py lines 27-39, for a payload
that is not `None`: on success the accumulated text is stripped if truthy,
otherwise the no-text diagnostic is returned; on exception the read-error
diagnostic is returned. -/
def extract_text_from_pdf : PdfOpen → String
  | .pages ts =>
      let full := pageFold ts
      if full != "" then pyStrip full else noTextMsg
  | .raised e => readErrorMsg e

/-- The per-user Streamlit session state: `pdf_text_context` (the extracted
document text or `None`), `messages` (displayed `(role, content)` turns) and
`chat_session` (the opaque genai chat handle, modelled as a `Nat`). -/
structure Session where
  pdf_text_context : Option String
  messages : List (String × String)
  chat_session : Nat
deriving DecidableEq, Repr

/-- The call `st.session_state.model.start_chat(history=[])`: a brand-new
chat object, modelled as the successor handle. -/
def startChat (s : Session) : Nat := s.chat_session + 1

/-- Python truthiness of the optional document text: `None` and `""` are
falsy, any other string is truthy. -/
def optTruthy : Option String → Bool
  | none => false
  | some s => s != ""

/-- The failure classification of the Process PDF handler (app.py line 75):
the extracted string is treated as a failure exactly when it contains
`"Error reading PDF"` or `"No text could be extracted"` as a substring. -/
def isFailureText (t : String) : Bool :=
  pyContains t "Error reading PDF" || pyContains t "No text could be extracted"

/-- What the Process PDF handler renders: a sidebar error carrying the
diagnostic string, or the success path. -/
inductive ProcessOutput where
  | sidebarError (reason : String)
  | success
deriving DecidableEq, Repr

/-- The Process PDF success branch of app.py lines 79-88 (and the
`loadDocument` operation of the spec): store the extracted text, clear the
displayed messages and start a fresh chat session. -/
def loadDocument (s : Session) (t : String) : Session :=
  { pdf_text_context := some t, messages := [], chat_session := startChat s }

/-- The Clear PDF Context & Chat handler of app.py lines 93-98 (the
`clearDocument` operation of the spec): drop the document text, clear the
displayed messages and start a fresh chat session. -/
def clearDocument (s : Session) : Session :=
  { pdf_text_context := none, messages := [], chat_session := startChat s }

/-- The Clear Chat Only handler of app.py lines 156-163 (the
`resetChatKeepDocument` operation of the spec): start a fresh chat session
and clear the displayed messages, keeping `pdf_text_context`. -/
def resetChatKeepDocument (s : Session) : Session :=
  { s with messages := [], chat_session := startChat s }

/-- The Process PDF handler of app.py lines 71-88: extract, classify by
substring search; on failure report the diagnostic in the sidebar and set
`pdf_text_context` to `None`; on success load the document. -/
def processPdf (s : Session) (input : PdfOpen) : Session × ProcessOutput :=
  let extracted := extract_text_from_pdf input
  if isFailureText extracted then
    ({ s with pdf_text_context := none }, .sidebarError extracted)
  else
    (loadDocument s extracted, .success)

/-- The instruction template of app.py lines 122-128, an f-string wrapping
the full document text between start and end markers and ending with the
question tag followed by the user text. -/
def promptTemplate (t prompt : String) : String :=
  "Based on the following bank statement text, please answer the user\x27s question.\n\n"
    ++ "--- BANK STATEMENT TEXT START ---\n"
    ++ t ++ "\n"
    ++ "--- BANK STATEMENT TEXT END ---\n\n"
    ++ "User\x27s Question: " ++ prompt

/-- Construction of `final_prompt` (app.py lines 118-128): starts as the
user text and is replaced by the instruction template exactly when
`st.session_state.pdf_text_context` is truthy. -/
def final_prompt (ctx : Option String) (prompt : String) : String :=
  match ctx with
  | some t => if t != "" then promptTemplate t prompt else prompt
  | none => prompt

/-- The truncation-risk warning of app.py lines 131-134: evaluated inside
the truthy-context branch only, and shown when the constructed prompt
exceeds 28000 characters. -/
def truncationWarning (ctx : Option String) (prompt : String) : Bool :=
  optTruthy ctx && decide (28000 < (final_prompt ctx prompt).length)

/-- Outcome of `chat_session.send_message(final_prompt)`: the reply text, or
the message of the raised exception. -/
inductive ApiResult where
  | reply (text : String)
  | apiError (detail : String)

/-- The error text built in the except branch of app.py line 149. -/
def errorMessage (detail : String) : String :=
  "❌ Error communicating with Gemini: " ++ detail

/-- Result of one chat-input interaction: the updated session, whether the
truncation warning was rendered, and the payload handed to
`send_message` (the send is attempted whether or not the warning fired). -/
structure SendResult where
  session : Session
  warned : Bool
  sentPayload : String
deriving DecidableEq, Repr

/-- The chat-input handler of app.py lines 107-151: append the user turn,
build `final_prompt`, possibly warn, and send; on a reply append it as the
assistant turn, on an exception append the error text as the assistant turn
instead of re-raising. -/
def sendMessage (s : Session) (prompt : String) (api : ApiResult) : SendResult :=
  let s1 : Session := { s with messages := s.messages ++ [("user", prompt)] }
  let fp := final_prompt s.pdf_text_context prompt
  let w := truncationWarning s.pdf_text_context prompt
  match api with
  | .reply r =>
      { session := { s1 with messages := s1.messages ++ [("assistant", r)] }
        warned := w, sentPayload := fp }
  | .apiError d =>
      { session := { s1 with messages := s1.messages ++ [("assistant", errorMessage d)] }
        warned := w, sentPayload := fp }

/-- A string of `n` copies of the letter a, for length scenarios. -/
def manyA (n : Nat) : String := String.mk (List.replicate n 'a')

/-! Helper lemmas about the string primitives. -/

theorem strData_append (a b : String) : (a ++ b).data = a.data ++ b.data := by
  cases a; cases b; rfl

theorem str_eq_iff (a b : String) : a = b ↔ a.data = b.data := by
  constructor
  · intro h; rw [h]
  · intro h; cases a; cases b; exact congrArg String.mk h

theorem strAppend_assoc (a b c : String) : a ++ b ++ c = a ++ (b ++ c) := by
  simp [str_eq_iff, strData_append]

theorem strAppend_empty (a : String) : a ++ "" = a := by
  simp [str_eq_iff, strData_append]

theorem strEmpty_append (a : String) : "" ++ a = a := by
  simp [str_eq_iff, strData_append]

theorem strAppend_eq_empty (a b : String) : a ++ b = "" ↔ a = "" ∧ b = "" := by
  constructor
  · intro h
    have hd : a.data ++ b.data = [] := by
      have := (str_eq_iff _ _).mp h
      rwa [strData_append] at this
    rcases List.append_eq_nil.mp hd with ⟨ha, hb⟩
    exact ⟨(str_eq_iff _ _).mpr ha, (str_eq_iff _ _).mpr hb⟩
  · rintro ⟨ha, hb⟩
    rw [ha, hb]
    exact strAppend_empty ""

theorem strLen_append (a b : String) : (a ++ b).length = a.length + b.length := by
  show (a ++ b).data.length = a.data.length + b.data.length
  rw [strData_append]
  exact List.length_append _ _

theorem manyA_length (n : Nat) : (manyA n).length = n := by
  simp [manyA, String.length]

theorem pageFold_go (acc : String) (ts : List String) :
    ts.foldl (fun acc p => if p != "" then acc ++ (p ++ "\n\n") else acc) acc
      = acc ++ concatPages ts := by
  induction ts generalizing acc with
  | nil => simp [concatPages, strAppend_empty]
  | cons p ps ih =>
      rw [List.foldl_cons, ih]
      show (if p != "" then acc ++ (p ++ "\n\n") else acc) ++ concatPages ps
          = acc ++ ((if p != "" then p ++ "\n\n" else "") ++ concatPages ps)
      by_cases hb : (p != "") = true
      · rw [if_pos hb, if_pos hb, strAppend_assoc]
      · rw [if_neg hb, if_neg hb, strEmpty_append]

theorem pageFold_eq (ts : List String) : pageFold ts = concatPages ts := by
  rw [pageFold, pageFold_go, strEmpty_append]

theorem concatPages_eq_empty (ts : List String) :
    concatPages ts = "" ↔ ∀ t ∈ ts, t = "" := by
  induction ts with
  | nil => simp [concatPages]
  | cons p ps ih =>
      show (if p != "" then p ++ "\n\n" else "") ++ concatPages ps = "" ↔ _
      by_cases hb : (p != "") = true
      · have hp : ¬p = "" := by simpa using hb
        rw [if_pos hb]
        constructor
        · intro h
          exact absurd ((strAppend_eq_empty _ _).mp ((strAppend_eq_empty _ _).mp h).1).1 hp
        · intro h
          exact absurd (h p (List.mem_cons_self p ps)) hp
      · have hp : p = "" := by simpa using hb
        rw [if_neg hb, strEmpty_append]
        constructor
        · intro h t ht
          rcases List.mem_cons.mp ht with rfl | ht2
          · exact hp
          · exact ih.mp h t ht2
        · intro h
          exact ih.mpr fun t ht => h t (List.mem_cons_of_mem _ ht)

theorem startsWithL_self (l : List Char) : startsWithL l l = true := by
  induction l with
  | nil => rfl
  | cons a as ih => simp [startsWithL, ih]

theorem occursIn_append_right (pre pat : List Char) : occursIn pat (pre ++ pat) = true := by
  induction pre with
  | nil =>
      rw [List.nil_append]
      cases pat with
      | nil => rfl
      | cons c cs => simp [occursIn, startsWithL_self]
  | cons x xs ih => simp [occursIn, ih]

theorem sentPayload_eq (s : Session) (prompt : String) (api : ApiResult) :
    (sendMessage s prompt api).sentPayload = final_prompt s.pdf_text_context prompt := by
  cases api <;> rfl

theorem warned_eq (s : Session) (prompt : String) (api : ApiResult) :
    (sendMessage s prompt api).warned = truncationWarning s.pdf_text_context prompt := by
  cases api <;> rfl

theorem promptTemplate_split (t p : String) :
    promptTemplate t p =
      ("Based on the following bank statement text, please answer the user\x27s question.\n\n"
        ++ "--- BANK STATEMENT TEXT START ---\n" ++ t ++ "\n"
        ++ "--- BANK STATEMENT TEXT END ---\n\n") ++ ("User\x27s Question: " ++ p) :=
  strAppend_assoc _ _ _

theorem promptTemplate_length (t p : String) :
    (promptTemplate t p).length = 165 + t.length + p.length := by
  have e1 : ("Based on the following bank statement text, please answer the user\x27s question.\n\n" : String).length = 80 := rfl
  have e2 : ("--- BANK STATEMENT TEXT START ---\n" : String).length = 34 := rfl
  have e3 : ("\n" : String).length = 1 := rfl
  have e4 : ("--- BANK STATEMENT TEXT END ---\n\n" : String).length = 33 := rfl
  have e5 : ("User\x27s Question: " : String).length = 17 := rfl
  simp only [promptTemplate, strLen_append, e1, e2, e3, e4, e5]
  omega

/-! Claims. -/

/-- Claim C1, as stated, is false: when extraction yields a failure string
the handler does not leave the Session unchanged — app.py line 77 sets
`pdf_text_context` to `None`, discarding a previously loaded document. Here
a session holding a document processes a PDF whose opening raises, and its
`pdf_text_context` is wiped. -/
theorem c1_counterexample :
    isFailureText (extract_text_from_pdf (.raised "bad xref")) = true ∧
    (processPdf ⟨some "Balance: $100", [("user", "hi")], 0⟩
      (.raised "bad xref")).1.pdf_text_context ≠ some "Balance: $100" := by
  decide

/-- Claim C1 (amended): for every ProcessPdf action whose extraction yields
a failure string, the handler displays the failure reason in the sidebar,
sets `pdf_text_context` to absent, and leaves `messages` and the
conversation handle exactly as they were. -/
theorem c1_amended (s : Session) (input : PdfOpen)
    (h : isFailureText (extract_text_from_pdf input) = true) :
    (processPdf s input).2 = .sidebarError (extract_text_from_pdf input) ∧
    (processPdf s input).1.pdf_text_context = none ∧
    (processPdf s input).1.messages = s.messages ∧
    (processPdf s input).1.chat_session = s.chat_session := by
  simp [processPdf, h]

/-- Claim C1 witness: a concrete failing extraction (a PDF with one page
yielding no text) applied to a concrete session. -/
theorem c1_witness :
    (processPdf ⟨some "doc", [("user", "hello")], 3⟩ (.pages [])).1.chat_session = 3 :=
  (c1_amended ⟨some "doc", [("user", "hello")], 3⟩ (.pages []) (by decide)).2.2.2

/-- Claim C2, as stated, is false: a one-page PDF whose page text is a
single space makes the accumulated text truthy, so the code strips it and
returns the empty string rather than the no-text failure message, even
though the concatenation is empty after trimming; the returned text is also
not non-empty. -/
theorem c2_counterexample :
    pyStrip (pageFold [" "]) = "" ∧
    extract_text_from_pdf (.pages [" "]) ≠ noTextMsg ∧
    extract_text_from_pdf (.pages [" "]) = "" := by
  decide

/-- Claim C2 (amended): for every PDF payload that opens without raising,
extract returns the no-text failure message if and only if the raw
concatenation is empty, which happens exactly when every page text is
empty; otherwise it returns the concatenation trimmed of leading and
trailing whitespace, which can itself be empty when all page text is
whitespace-only. -/
theorem c2_amended (ts : List String) :
    (pageFold ts = "" ↔ ∀ t ∈ ts, t = "") ∧
    (pageFold ts = "" → extract_text_from_pdf (.pages ts) = noTextMsg) ∧
    (pageFold ts ≠ "" → extract_text_from_pdf (.pages ts) = pyStrip (pageFold ts)) := by
  refine ⟨by rw [pageFold_eq]; exact concatPages_eq_empty ts, ?_, ?_⟩
  · intro h
    simp [extract_text_from_pdf, h]
  · intro h
    have hb : (pageFold ts != "") = true := by simpa using h
    simp [extract_text_from_pdf, hb]

/-- Claim C2 witness: a one-page PDF with real text takes the success
branch and returns the stripped concatenation. -/
theorem c2_witness :
    extract_text_from_pdf (.pages ["hello"]) = pyStrip (pageFold ["hello"]) :=
  (c2_amended ["hello"]).2.2 (by decide)

/-- Claim C3 (confirmed): a 2-page PDF whose pages extract to
Balance: $100 and Balance: $200 yields exactly those page texts in order,
separated by a blank line, with no trailing separator after stripping. -/
theorem c3_two_page_scenario :
    extract_text_from_pdf (.pages ["Balance: $100", "Balance: $200"])
      = "Balance: $100\n\nBalance: $200" := by
  decide

/-- Claim C4, as stated, is false at a present-but-empty document text: the
code tests Python truthiness, so with `pdf_text_context = Some ""` (a
present documentText, reachable by processing a whitespace-only PDF) the
outbound payload is the user text verbatim, not the instruction template. -/
theorem c4_counterexample :
    (some "" : Option String).isSome = true ∧
    (sendMessage ⟨some "", [], 0⟩ "hi" (.reply "ok")).sentPayload = "hi" ∧
    (sendMessage ⟨some "", [], 0⟩ "hi" (.reply "ok")).sentPayload ≠ promptTemplate "" "hi" := by
  decide

/-- Claim C4 (amended): for every SendMessage, if documentText is present
and non-empty the outbound payload is the fixed instruction template
embedding the full document text between the start and end markers and
ending with the question tag followed by the user text; if documentText is
absent or empty, the payload is the user text verbatim. -/
theorem c4_amended (s : Session) (prompt : String) (api : ApiResult) :
    (∀ t, s.pdf_text_context = some t → t ≠ "" →
      (sendMessage s prompt api).sentPayload = promptTemplate t prompt ∧
      ∃ pre, (sendMessage s prompt api).sentPayload
          = pre ++ ("User\x27s Question: " ++ prompt)) ∧
    (s.pdf_text_context = none ∨ s.pdf_text_context = some "" →
      (sendMessage s prompt api).sentPayload = prompt) := by
  have hsp := sentPayload_eq s prompt api
  constructor
  · intro t ht hne
    have hb : (t != "") = true := by simpa using hne
    have h1 : (sendMessage s prompt api).sentPayload = promptTemplate t prompt := by
      rw [hsp, ht]
      show (if t != "" then promptTemplate t prompt else prompt) = promptTemplate t prompt
      rw [if_pos hb]
    exact ⟨h1, ⟨_, h1.trans (promptTemplate_split t prompt)⟩⟩
  · rintro (h | h) <;> rw [hsp, h] <;> rfl

/-- Claim C4 witness: the spec scenario, a loaded document
Balance: $100 and the question about the balance. -/
theorem c4_witness :
    (sendMessage ⟨some "Balance: $100", [], 0⟩ "What is the balance?"
        (.reply "ok")).sentPayload = promptTemplate "Balance: $100" "What is the balance?" :=
  ((c4_amended ⟨some "Balance: $100", [], 0⟩ "What is the balance?" (.reply "ok")).1
    "Balance: $100" rfl (by decide)).1

/-- Claim C5, as stated, is false: the length check sits inside the
truthy-document branch, so a SendMessage without a document whose payload
is 30000 characters long is sent with no truncation warning. -/
theorem c5_counterexample :
    28000 < (sendMessage ⟨none, [], 0⟩ (manyA 30000) (.reply "ok")).sentPayload.length ∧
    (sendMessage ⟨none, [], 0⟩ (manyA 30000) (.reply "ok")).warned = false := by
  constructor
  · rw [sentPayload_eq]
    show 28000 < (manyA 30000).length
    rw [manyA_length]
    omega
  · rfl

/-- Claim C5 (amended): for every SendMessage with a present, non-empty
documentText, the truncation-risk warning is surfaced exactly when the
constructed payload exceeds 28000 characters, and the send is attempted
with that payload regardless; in particular, with a document loaded, a
30000-character payload triggers the warning and a 27000-character payload
does not, while without a document no payload length triggers it. -/
theorem c5_amended (s : Session) (prompt : String) (api : ApiResult)
    (h : optTruthy s.pdf_text_context = true) :
    ((sendMessage s prompt api).warned = true ↔
      28000 < (sendMessage s prompt api).sentPayload.length) ∧
    (sendMessage s prompt api).sentPayload = final_prompt s.pdf_text_context prompt := by
  refine ⟨?_, sentPayload_eq s prompt api⟩
  rw [warned_eq, sentPayload_eq]
  simp [truncationWarning, h]

/-- Claim C5 witness: with document text d loaded, a payload of exactly
30000 characters warns and a payload of exactly 27000 characters does
not. -/
theorem c5_witness :
    ((sendMessage ⟨some "d", [], 0⟩ (manyA 29834) (.reply "r")).sentPayload.length = 30000 ∧
      (sendMessage ⟨some "d", [], 0⟩ (manyA 29834) (.reply "r")).warned = true) ∧
    ((sendMessage ⟨some "d", [], 0⟩ (manyA 26834) (.reply "r")).sentPayload.length = 27000 ∧
      (sendMessage ⟨some "d", [], 0⟩ (manyA 26834) (.reply "r")).warned = false) := by
  have h1 := c5_amended ⟨some "d", [], 0⟩ (manyA 29834) (.reply "r") (by decide)
  have h2 := c5_amended ⟨some "d", [], 0⟩ (manyA 26834) (.reply "r") (by decide)
  have hd : (("d" : String) != "") = true := by decide
  have len1 : (final_prompt (some "d") (manyA 29834)).length = 30000 := by
    show (if ("d" : String) != "" then promptTemplate "d" (manyA 29834) else manyA 29834).length = 30000
    rw [if_pos hd, promptTemplate_length, manyA_length]
    rfl
  have len2 : (final_prompt (some "d") (manyA 26834)).length = 27000 := by
    show (if ("d" : String) != "" then promptTemplate "d" (manyA 26834) else manyA 26834).length = 27000
    rw [if_pos hd, promptTemplate_length, manyA_length]
    rfl
  have e1 : (sendMessage ⟨some "d", [], 0⟩ (manyA 29834) (.reply "r")).sentPayload.length = 30000 := by
    rw [h1.2]
    exact len1
  have e2 : (sendMessage ⟨some "d", [], 0⟩ (manyA 26834) (.reply "r")).sentPayload.length = 27000 := by
    rw [h2.2]
    exact len2
  refine ⟨⟨e1, h1.1.mpr (by rw [e1]; omega)⟩, ⟨e2, ?_⟩⟩
  rcases Bool.eq_false_or_eq_true ((sendMessage ⟨some "d", [], 0⟩ (manyA 26834) (.reply "r")).warned)
    with hw | hw
  · have := h2.1.mp hw
    rw [e2] at this
    omega
  · exact hw

/-- Claim C6 (confirmed): when the remote send raises with message detail,
the handler appends the user turn and then an assistant turn whose content
is the error text containing the literal Error communicating with Gemini
followed by the detail; the error is not re-raised (the transition returns
a session normally) and `pdf_text_context` is unchanged; on success the
assistant turn holds the reply instead. -/
theorem c6_api_error_as_assistant (s : Session) (prompt detail rep : String) :
    (sendMessage s prompt (.apiError detail)).session.messages
        = s.messages ++ [("user", prompt), ("assistant", errorMessage detail)] ∧
    (sendMessage s prompt (.apiError detail)).session.pdf_text_context = s.pdf_text_context ∧
    pyContains (errorMessage detail) ("Error communicating with Gemini: " ++ detail) = true ∧
    (sendMessage s prompt (.reply rep)).session.messages
        = s.messages ++ [("user", prompt), ("assistant", rep)] := by
  refine ⟨?_, rfl, ?_, ?_⟩
  · show (s.messages ++ [("user", prompt)]) ++ [("assistant", errorMessage detail)] = _
    rw [List.append_assoc]
    rfl
  · have hlit : ("❌ Error communicating with Gemini: " : String).data
        = '❌' :: ' ' :: ("Error communicating with Gemini: " : String).data := rfl
    show occursIn ("Error communicating with Gemini: " ++ detail).data
        (errorMessage detail).data = true
    rw [errorMessage, strData_append, strData_append, hlit]
    exact occursIn_append_right ['❌', ' '] _
  · show (s.messages ++ [("user", prompt)]) ++ [("assistant", rep)] = _
    rw [List.append_assoc]
    rfl

/-- Claim C7 (confirmed): for every Session, the Clear PDF Context & Chat
handler sets `pdf_text_context` to absent regardless of its prior value,
and the Clear Chat Only handler leaves `pdf_text_context` exactly as it
was. -/
theorem c7_document_frame (s : Session) :
    (clearDocument s).pdf_text_context = none ∧
    (resetChatKeepDocument s).pdf_text_context = s.pdf_text_context :=
  ⟨rfl, rfl⟩

/-- Claim C8 (confirmed): each of loadDocument (the Process PDF success
branch), clearDocument and resetChatKeepDocument clears `messages` to empty
and replaces the conversation handle by a fresh one distinct from the prior
one, so displayed history is cleared whenever the handle is replaced. -/
theorem c8_fresh_handle_clears_messages (s : Session) (t : String) :
    ((loadDocument s t).messages = [] ∧ (loadDocument s t).chat_session ≠ s.chat_session) ∧
    ((clearDocument s).messages = [] ∧ (clearDocument s).chat_session ≠ s.chat_session) ∧
    ((resetChatKeepDocument s).messages = []
      ∧ (resetChatKeepDocument s).chat_session ≠ s.chat_session) := by
  refine ⟨⟨rfl, ?_⟩, ⟨rfl, ?_⟩, ⟨rfl, ?_⟩⟩ <;>
    · show s.chat_session + 1 ≠ s.chat_session
      omega

/-- Claim C9 (confirmed): the Process PDF handler classifies the extraction
result as a failure exactly when that string contains the substring
Error reading PDF or the substring No text could be extracted; whenever the
extracted text contains either substring, `pdf_text_context` is not set to
it but reset to absent. -/
theorem c9_substring_classification (s : Session) (input : PdfOpen) :
    ((processPdf s input).2 = .sidebarError (extract_text_from_pdf input) ↔
      (pyContains (extract_text_from_pdf input) "Error reading PDF"
        || pyContains (extract_text_from_pdf input) "No text could be extracted") = true) ∧
    ((pyContains (extract_text_from_pdf input) "Error reading PDF"
        || pyContains (extract_text_from_pdf input) "No text could be extracted") = true →
      (processPdf s input).1.pdf_text_context = none) := by
  have hdef : isFailureText (extract_text_from_pdf input)
      = (pyContains (extract_text_from_pdf input) "Error reading PDF"
          || pyContains (extract_text_from_pdf input) "No text could be extracted") := rfl
  rw [← hdef]
  rcases Bool.eq_false_or_eq_true (isFailureText (extract_text_from_pdf input)) with h | h
  · constructor
    · simp [processPdf, h]
    · intro _
      simp [processPdf, h]
  · constructor
    · simp [processPdf, h]
    · intro hcon
      rw [h] at hcon
      exact absurd hcon (by simp)

/-- Claim C9 witness: a PDF whose single page genuinely extracts to a
sentence containing Error reading PDF is treated as a failed extraction and
the document text is not stored. -/
theorem c9_witness :
    (processPdf ⟨none, [], 0⟩
        (.pages ["The phrase Error reading PDF appears in this statement"])).1.pdf_text_context
      = none :=
  (c9_substring_classification ⟨none, [], 0⟩
    (.pages ["The phrase Error reading PDF appears in this statement"])).2 (by decide)

/-- Claim C6 witness: the spec scenario, a quota-exceeded failure appended
as the assistant turn of a fresh session. -/
theorem c6_witness :
    (sendMessage ⟨some "Balance: $100", [], 1⟩ "q" (.apiError "quota exceeded")).session.messages
      = [("user", "q"), ("assistant", errorMessage "quota exceeded")] :=
  (c6_api_error_as_assistant ⟨some "Balance: $100", [], 1⟩ "q" "quota exceeded" "r").1

/-- Claim C7 witness: clearing a session that holds a document leaves no
document text. -/
theorem c7_witness :
    (clearDocument ⟨some "Balance: $100", [], 0⟩).pdf_text_context = none :=
  (c7_document_frame ⟨some "Balance: $100", [], 0⟩).1

/-- Claim C8 witness: clearing a concrete session replaces handle 4 with a
different handle. -/
theorem c8_witness :
    (clearDocument ⟨some "x", [("user", "hi")], 4⟩).chat_session ≠ 4 :=
  (c8_fresh_handle_clears_messages ⟨some "x", [("user", "hi")], 4⟩ "t").2.1.2

/-- Claim C10 (confirmed): the truncation warning is computed only inside
the truthy-document branch, so for every SendMessage with documentText
absent no warning is surfaced, whatever the length of the user text. -/
theorem c10_no_warning_without_document (s : Session) (prompt : String) (api : ApiResult)
    (h : s.pdf_text_context = none) :
    (sendMessage s prompt api).warned = false := by
  rw [warned_eq, h]
  rfl

/-- Claim C10 witness: a 30000-character user text sent with no document
loaded produces no warning. -/
theorem c10_witness :
    (sendMessage ⟨none, [], 7⟩ (manyA 30000) (.apiError "quota exceeded")).warned = false :=
  c10_no_warning_without_document ⟨none, [], 7⟩ (manyA 30000) (.apiError "quota exceeded") rfl

end ChatWithPDF

